import Mathlib

/-!
# Verification of the creator-score pipeline

Shallow embedding of `src/creator-iq-routes/leaderboard-route.ts`
(the IQ-scoring POST route and its helpers), together with proofs of the
specification's claims about it.

Modelling conventions:
* A JavaScript number is modelled as `ℝ` (exact arithmetic); a value that can
  be `NaN`/`undefined` along the relevant code paths is modelled as
  `Option ℝ` with `none` standing for the missing/NaN value.
* `Math.round x` is `round x` (Mathlib rounds half up, i.e. `⌊x + 1/2⌋`,
  exactly JavaScript's `Math.round` on finite values).
* External collaborators (Neynar, the iq-checker endpoint, OpenAI, Gemini,
  MongoDB, `Math.random`) are modelled by an `Env` record holding the outcome
  of the single call the code makes to each of them; a thrown exception or a
  non-OK HTTP status is a `failed`/error constructor.
* Strings are Lean `String`s (sequences of Unicode scalar values); the regex
  tests of the source are implemented character-by-character below.
-/

namespace CreatorScore

/-- The `NeynarCast` interface: one post.  `timestamp` is carried but never
read by the analysis code. -/
structure Post where
  text : String
  timestamp : String
  likes : ℕ
  recasts : ℕ
  replies : ℕ
deriving DecidableEq, Repr

/-- `{ platform, username }` entries of `verified_accounts`. -/
structure VAccount where
  platform : String
  username : String
deriving DecidableEq, Repr

/-! ## Character / string helpers used by the regex tests of the source -/

/-- JS `\s` (whitespace class), restricted to the usual ASCII whitespace. -/
def isWsChar (c : Char) : Bool := c.isWhitespace

/-- JS `\w` word character: `[A-Za-z0-9_]`. -/
def isWordChar (c : Char) : Bool :=
  (('a' ≤ c && c ≤ 'z') || ('A' ≤ c && c ≤ 'Z') || ('0' ≤ c && c ≤ '9') || c = '_')

/-- `[.!?]`, the sentence-delimiter class of `analyzeWritingStyle`. -/
def isSentDelim (c : Char) : Bool := c = '.' || c = '!' || c = '?'

/-- Maximal runs of non-delimiter characters: `split(/D+/)` followed by
dropping empty segments (the source always filters those out). -/
def splitRunsAux (p : Char → Bool) : List Char → List Char → List (List Char)
  | acc, [] => if acc.isEmpty then [] else [acc.reverse]
  | acc, c :: cs =>
    if p c then
      if acc.isEmpty then splitRunsAux p [] cs
      else acc.reverse :: splitRunsAux p [] cs
    else splitRunsAux p (c :: acc) cs

def splitRuns (p : Char → Bool) (cs : List Char) : List (List Char) :=
  splitRunsAux p [] cs

/-- JS `String.prototype.trim`. -/
def trimChars (cs : List Char) : List Char :=
  ((cs.dropWhile isWsChar).reverse.dropWhile isWsChar).reverse

/-- Does `pat` occur literally at the head of `cs`? -/
def litAt : List Char → List Char → Bool
  | [], _ => true
  | _ :: _, [] => false
  | p :: ps, c :: cs => p = c && litAt ps cs

/-- One position of the test `/https?:\/\/[^\s]+/`: an `http://` or
`https://` literal followed by at least one non-whitespace character. -/
def matchHttpAt (cs : List Char) : Bool :=
  (litAt "https://".data cs && headNonWs (cs.drop 8)) ||
  (litAt "http://".data cs && headNonWs (cs.drop 7))
where headNonWs : List Char → Bool
  | [] => false
  | c :: _ => !(isWsChar c)

/-- `/https?:\/\/[^\s]+/.test(text)`. -/
def hasLink : List Char → Bool
  | [] => false
  | c :: rest => matchHttpAt (c :: rest) || hasLink rest

/-- `/@\w+/.test(text)`. -/
def hasMention : List Char → Bool
  | [] => false
  | c :: rest =>
    (c = '@' && (match rest with | [] => false | d :: _ => isWordChar d)) ||
    hasMention rest

/-- `/#\w+/.test(text)`. -/
def hasHashtag : List Char → Bool
  | [] => false
  | c :: rest =>
    (c = '#' && (match rest with | [] => false | d :: _ => isWordChar d)) ||
    hasHashtag rest

/-! ## Feature extractors (lines 113–235 of the route) -/

/-- `likes_count + recasts_count + replies.count` for one cast. -/
def interactions (p : Post) : ℕ := p.likes + p.recasts + p.replies

/-- `casts.map(c => c.text).join(sep)`. -/
def joinedText (casts : List Post) : String :=
  String.intercalate " " (casts.map Post.text)

/-- ratio `count(posts matching p) / |casts|` used throughout
`analyzeContentQuality`. -/
noncomputable def postRatio (p : Post → Bool) (casts : List Post) : ℝ :=
  ((casts.countP p : ℕ) : ℝ) / (casts.length : ℝ)

/-- `analyzeContentQuality`: `avgLength`. -/
noncomputable def avgLength (casts : List Post) : ℝ :=
  (((casts.map (fun c => c.text.length)).sum : ℕ) : ℝ) / (casts.length : ℝ)

/-- `analyzeContentQuality`: `longPostRatio` (posts with more than 100 chars). -/
noncomputable def longPostRatio (casts : List Post) : ℝ :=
  postRatio (fun c => decide (100 < c.text.length)) casts

/-- `analyzeContentQuality`: `shortPostRatio` (posts with fewer than 50 chars). -/
noncomputable def shortPostRatio (casts : List Post) : ℝ :=
  postRatio (fun c => decide (c.text.length < 50)) casts

/-- `analyzeContentQuality`: `hasQuestions` (ratio of posts containing `?`). -/
noncomputable def hasQuestionsRatio (casts : List Post) : ℝ :=
  postRatio (fun c => c.text.data.contains '?') casts

/-- `analyzeContentQuality`: `hasExclamations`. -/
noncomputable def hasExclamationsRatio (casts : List Post) : ℝ :=
  postRatio (fun c => c.text.data.contains '!') casts

/-- `analyzeContentQuality`: `hasLinks`. -/
noncomputable def hasLinksRatio (casts : List Post) : ℝ :=
  postRatio (fun c => hasLink c.text.data) casts

/-- `analyzeContentQuality`: `hasMentions`. -/
noncomputable def hasMentionsRatio (casts : List Post) : ℝ :=
  postRatio (fun c => hasMention c.text.data) casts

/-- `analyzeContentQuality`: `hasHashtags`. -/
noncomputable def hasHashtagsRatio (casts : List Post) : ℝ :=
  postRatio (fun c => hasHashtag c.text.data) casts

/-- `calculateEngagementMetrics`: `totalEngagement`. -/
def totalEngagement (casts : List Post) : ℕ :=
  (casts.map interactions).sum

/-- `calculateEngagementMetrics`: `engagementPerPost`. -/
noncomputable def engagementPerPost (casts : List Post) : ℝ :=
  ((totalEngagement casts : ℕ) : ℝ) / (casts.length : ℝ)

/-- `calculateEngagementMetrics`: `highEngagementRatio`
(posts with `likes+recasts+replies > 10`). -/
noncomputable def highEngagementRatio (casts : List Post) : ℝ :=
  postRatio (fun c => decide (10 < interactions c)) casts

/-- `calculateEngagementMetrics`: `viralPostRatio`
(posts with `likes+recasts > 50`). -/
noncomputable def viralPostRatio (casts : List Post) : ℝ :=
  postRatio (fun c => decide (50 < c.likes + c.recasts)) casts

/-- `calculateConsistencyScore`:
`max(0, 100 - (stdDev / max(mean, 1)) * 50)`, `0` for fewer than 2 casts. -/
noncomputable def calculateConsistencyScore (casts : List Post) : ℝ :=
  if casts.length < 2 then 0
  else
    let rates : List ℝ := casts.map (fun c => ((interactions c : ℕ) : ℝ))
    let mean := rates.sum / (rates.length : ℝ)
    let variance := (rates.map (fun r => (r - mean) ^ 2)).sum / (rates.length : ℝ)
    max 0 (100 - (Real.sqrt variance / max mean 1) * 50)

/-- `analyzeWritingStyle`: the word list
(`allText.split(/\s+/).filter(w => w.length > 0)`). -/
def styleWords (casts : List Post) : List (List Char) :=
  splitRuns isWsChar (joinedText casts).data

/-- `analyzeWritingStyle`: the sentence list
(`allText.split(/[.!?]+/).filter(s => s.trim().length > 0)`). -/
def styleSentences (casts : List Post) : List (List Char) :=
  (splitRuns isSentDelim (joinedText casts).data).filter
    (fun s => !(trimChars s).isEmpty)

/-- `word.toLowerCase().replace(/[^\w]/g, '')`. -/
def normalizeWord (w : List Char) : List Char :=
  (w.map Char.toLower).filter isWordChar

/-- `analyzeWritingStyle`: `avgWordsPerSentence`. -/
noncomputable def avgWordsPerSentence (casts : List Post) : ℝ :=
  ((styleWords casts).length : ℝ) / (max (styleSentences casts).length 1 : ℕ)

/-- `analyzeWritingStyle`: `avgWordLength`. -/
noncomputable def avgWordLength (casts : List Post) : ℝ :=
  ((((styleWords casts).map List.length).sum : ℕ) : ℝ) /
    (max (styleWords casts).length 1 : ℕ)

/-- `analyzeWritingStyle`: `uniqueWords.size` (a JS `Set` of the normalized
words). -/
def uniqueWordsCount (casts : List Post) : ℕ :=
  ((styleWords casts).map normalizeWord).dedup.length

/-- `analyzeWritingStyle`: `vocabularyRatio`. -/
noncomputable def vocabularyRatio (casts : List Post) : ℝ :=
  ((uniqueWordsCount casts : ℕ) : ℝ) / (max (styleWords casts).length 1 : ℕ)

/-- `analyzeWritingStyle`: `properCapitalization`
(`/^[A-Z]/.test(sentence.trim())`). -/
noncomputable def properCapitalization (casts : List Post) : ℝ :=
  (((styleSentences casts).countP
      (fun s => match trimChars s with
        | [] => false
        | c :: _ => 'A' ≤ c && c ≤ 'Z') : ℕ) : ℝ) /
    (max (styleSentences casts).length 1 : ℕ)

/-! ### Topic diversity (`analyzeTopicDiversity`) -/

/-- The 8 topic regexes, in declaration order, each an ordered alternation of
literal keywords (the source regexes carry no word boundaries). -/
def topicList : List (String × List String) := [
  ("tech", ["ai", "artificial intelligence", "machine learning", "blockchain",
    "crypto", "web3", "programming", "code", "software", "tech", "technology",
    "startup", "entrepreneur"]),
  ("finance", ["money", "finance", "investment", "trading", "stock", "market",
    "economy", "financial", "wealth", "profit", "loss", "portfolio"]),
  ("politics", ["politics", "government", "policy", "election", "vote",
    "democrat", "republican", "liberal", "conservative", "political"]),
  ("culture", ["culture", "art", "music", "film", "movie", "book",
    "literature", "poetry", "creative", "design", "fashion", "style"]),
  ("sports", ["sports", "football", "basketball", "soccer", "baseball",
    "game", "team", "player", "championship", "league"]),
  ("humor", ["funny", "joke", "humor", "comedy", "lol", "haha", "😂", "😄",
    "😆", "laugh", "hilarious"]),
  ("philosophy", ["philosophy", "meaning", "purpose", "existence", "truth",
    "reality", "consciousness", "mind", "thought", "wisdom"]),
  ("science", ["science", "research", "study", "experiment", "data",
    "analysis", "scientific", "discovery", "theory", "hypothesis"])]

/-- Global regex-match counting for an ordered alternation of nonempty
literals: scan left to right, at each position try the alternatives in
order; on a match, count it and resume after it (JS `text.match(re).length`
for the regexes of `analyzeTopicDiversity`). -/
def countMatchesAux (pats : List (List Char)) : ℕ → List Char → ℕ
  | 0, _ => 0
  | _ + 1, [] => 0
  | fuel + 1, c :: cs =>
    match pats.find? (fun p => litAt p (c :: cs)) with
    | some p => 1 + countMatchesAux pats fuel (cs.drop (p.length - 1))
    | none => countMatchesAux pats fuel cs

def countMatches (pats : List String) (text : List Char) : ℕ :=
  countMatchesAux (pats.map String.data) text.length text

/-- The lowercased concatenation the topic regexes run over
(`casts.map(c => c.text).join(' ').toLowerCase()`). -/
def allTextLower (casts : List Post) : List Char :=
  (joinedText casts).data.map Char.toLower

/-- `topicCounts` in declaration order (`Object.entries` preserves the
insertion order tech … science). -/
def topicEntries (casts : List Post) : List (String × ℕ) :=
  topicList.map (fun t => (t.1, countMatches t.2 (allTextLower casts)))

/-- `activeTopics`: categories with at least one match. -/
def activeTopics (casts : List Post) : ℕ :=
  (topicEntries casts).countP (fun p => decide (0 < p.2))

/-- `diversityScore = Math.min(100, (activeTopics / 8) * 100)`. -/
noncomputable def diversityScore (casts : List Post) : ℝ :=
  min 100 (((activeTopics casts : ℕ) : ℝ) / 8 * 100)

/-- The step of
`Object.entries(topicCounts).reduce((a, b) => a[1] > b[1] ? a : b)`. -/
def pickTopic (a b : String × ℕ) : String × ℕ :=
  if a.2 > b.2 then a else b

/-- `primaryTopic`: the JS `reduce` without an initial value starts from the
first entry.  (`topicEntries` always has 8 entries, so the empty case is
unreachable.) -/
def primaryTopic (casts : List Post) : String :=
  match topicEntries casts with
  | [] => ""
  | e :: rest => (rest.foldl pickTopic e).1

/-! ## Scoring engine (fallback heuristic, lines 500–558) -/

/-- `contentQualityScore` (line 501).  The summands are the indicators of
`analyzeContentQuality`. -/
noncomputable def contentQualityScore (casts : List Post) : ℝ :=
  min 100 (avgLength casts * 0.3 + longPostRatio casts * 50 +
    hasQuestionsRatio casts * 30 + hasLinksRatio casts * 20 +
    hasMentionsRatio casts * 15)

/-- `writingStyleScore` (line 509). -/
noncomputable def writingStyleScore (casts : List Post) : ℝ :=
  min 100 (vocabularyRatio casts * 40 + avgWordsPerSentence casts * 2 +
    properCapitalization casts * 30 + avgWordLength casts * 3)

/-- `engagementScore` (line 516). -/
noncomputable def engagementScore (casts : List Post) : ℝ :=
  min 100 (engagementPerPost casts * 0.5 +
    calculateConsistencyScore casts * 0.3 + viralPostRatio casts * 50)

/-- `topicDiversityScore` (line 522). -/
noncomputable def topicDiversityScore (casts : List Post) : ℝ :=
  diversityScore casts

/-- `comprehensiveScore` (line 525): equal weights on the four dimensions. -/
noncomputable def comprehensiveScore (casts : List Post) : ℝ :=
  contentQualityScore casts * 0.25 + writingStyleScore casts * 0.25 +
    engagementScore casts * 0.25 + topicDiversityScore casts * 0.25

/-- `baseScore` (line 533). -/
noncomputable def baseScore (casts : List Post) : ℝ :=
  70 + comprehensiveScore casts * 0.6 + (casts.length : ℝ) * 0.2

/-! ## The tiers of `analyzeWithAI` and their environment -/

/-- Which tier of `analyzeWithAI` produced the result.  This tag is proof
instrumentation recording which `return` statement fired; the source result
`{score, analysis, confidence}` carries no such field. -/
inductive Tier where
  | authoritative
  | providerA
  | providerB
  | heuristic
  | degraded
deriving DecidableEq, Repr

/-- The result of `analyzeWithAI`.  `score`/`confidence` are `none` exactly
when the corresponding JS value is `NaN` (which happens when a provider
payload lacks the numeric field).  The free-text `analysis` string is not
constrained by any claim and is elided. -/
structure AnalysisResult where
  score : Option ℝ
  confidence : Option ℝ
  tier : Tier

/-- Outcome of the single `https://iq-checker.xyz/api/iq/...` call:
`failed` covers a thrown fetch and a non-OK status; `ok iq` is a parsed JSON
body whose `iqScore` field is `iq` (absent = `none`). -/
inductive ExtOutcome where
  | ok (iqScore : Option ℚ)
  | failed
deriving DecidableEq, Repr

/-- A JSON object parsed out of a provider response
(`JSON.parse(content.match(/\{[\s\S]*\}/)[0])`): each expected field may be
absent. -/
structure ProviderPayload where
  score : Option ℚ
  analysis : Option String
  confidence : Option ℚ
deriving DecidableEq, Repr

/-- Observable outcome of one provider call: `failed` covers a thrown fetch,
a non-OK status, missing message content, no `{...}` match, and a
`JSON.parse` exception — every case in which the source falls through. -/
inductive ProviderOutcome where
  | parsed (p : ProviderPayload)
  | failed
deriving DecidableEq, Repr

/-- Outcome of the Neynar cast fetch: `ok` is an HTTP 200 with an optional
`casts` field, `httpError` a non-OK status (the code throws and catches it),
`transport` a thrown `fetch`. -/
inductive FetchOutcome where
  | ok (casts : Option (List Post))
  | httpError
  | transport
deriving Repr

/-- The cached row returned by `getIQScoreFromDatabase` (payload fields the
route passes through; `analysis`/`analyzedAt` elided as unconstrained). -/
structure CachedScore where
  score : Option ℝ
  confidence : Option ℝ

/-- One invocation's external world: the outcome of each single call the
route can make, plus the random draws and an `internalFault` flag modelling
an unexpected exception inside the heuristic region of the outer
`try` (lines 354–572). -/
structure Env where
  /-- `hasRecentIQScore(fid, days)` — the route passes `days = 30`. -/
  hasRecentAt : ℕ → Bool
  cachedScore : Option CachedScore
  /-- `getUserFromDatabaseByFid`: `none` = no row; `some va` = a row whose
  `verified_accounts` is `va` (itself possibly absent). -/
  cachedUser : Option (Option (List VAccount))
  /-- `fetchUserData(fid).verifiedAccounts` — the helper catches its own
  errors and then yields `[]`, so the outcome is always a list. -/
  fetchedUserAccounts : List VAccount
  fetchOutcome : FetchOutcome
  extLookup : ExtOutcome
  openaiKey : Bool
  openaiOutcome : ProviderOutcome
  geminiKey : Bool
  geminiOutcome : ProviderOutcome
  /-- the `Math.random()` draw of the heuristic tier (line 536). -/
  randHeuristic : ℚ
  /-- an unexpected exception in the heuristic computation, caught by the
  outer `catch` (line 560). -/
  internalFault : Bool
  /-- the `Math.random()` draw of the degraded fallback (line 564). -/
  randDegraded : ℚ
  /-- whether `saveIQScoreToDatabase` throws (line 655). -/
  saveFails : Bool

/-- The user-data argument of `analyzeWithAI`. -/
structure UserData where
  username : Option String
  displayName : Option String
  casts : List Post
  verifiedAccounts : Option (List VAccount)

/-- `userData.verifiedAccounts?.find(a => a.platform === 'x')`. -/
def findXAccount (ud : UserData) : Option VAccount :=
  (ud.verifiedAccounts.getD []).find? (fun a => a.platform = "x")

/-- Lines 247–267: the authoritative external lookup.  Runs only when a
verified `x` account with a truthy username exists; returns only when the
response parsed and `iqScore` is truthy (present and nonzero). -/
noncomputable def attemptAuthoritative (ud : UserData) (env : Env) :
    Option AnalysisResult :=
  match findXAccount ud with
  | none => none
  | some acct =>
    if acct.username = "" then none
    else
      match env.extLookup with
      | .failed => none
      | .ok none => none
      | .ok (some iq) =>
        if iq = 0 then none
        else some ⟨some (max 55 (min 145 ((iq : ℚ) : ℝ))), some 85,
          .authoritative⟩

/-- Lines 357–409: the OpenAI tier.  On a parsed payload the source clamps
`parsed.score` / `parsed.confidence` and returns — with **no** check that the
fields exist; a missing field propagates as `NaN` (`none` here). -/
noncomputable def attemptOpenai (env : Env) : Option AnalysisResult :=
  if env.openaiKey then
    match env.openaiOutcome with
    | .parsed p =>
      some ⟨p.score.map (fun q => max 55 (min 145 ((q : ℚ) : ℝ))),
        p.confidence.map (fun q => max 0 (min 100 ((q : ℚ) : ℝ))),
        .providerA⟩
    | .failed => none
  else none

/-- Lines 412–471: the Gemini tier; same contract as the OpenAI tier. -/
noncomputable def attemptGemini (env : Env) : Option AnalysisResult :=
  if env.geminiKey then
    match env.geminiOutcome with
    | .parsed p =>
      some ⟨p.score.map (fun q => max 55 (min 145 ((q : ℚ) : ℝ))),
        p.confidence.map (fun q => max 0 (min 100 ((q : ℚ) : ℝ))),
        .providerB⟩
    | .failed => none
  else none

/-- Lines 500–558: the deterministic local heuristic.
`randomFactor = (Math.random() - 0.5) * 15`;
`finalScore = Math.max(55, Math.min(145, Math.round(base + randomFactor)))`;
`confidence = Math.max(30, Math.min(85, 50 + casts.length*2 + comprehensive*0.3))`,
returned as `Math.round(confidence)`. -/
noncomputable def heuristicResult (casts : List Post) (rand : ℚ) :
    AnalysisResult where
  score := some (Int.cast
    (max 55 (min 145 (round (baseScore casts + ((rand : ℝ) - 0.5) * 15)))))
  confidence := some (Int.cast (round (max (30 : ℝ) (min 85
    (50 + (casts.length : ℝ) * 2 + comprehensiveScore casts * 0.3)))))
  tier := .heuristic

/-- Lines 563–571: the degraded fallback inside the outer `catch`.
`fallbackScore = Math.max(55, Math.min(145, 85 + (Math.random() - 0.5) * 40))`,
returned as `Math.round(fallbackScore)`;
`fallbackConfidence = Math.max(25, Math.min(60, 40 + casts.length * 1.5))`,
returned rounded. -/
noncomputable def degradedResult (casts : List Post) (rand : ℚ) :
    AnalysisResult where
  score := some (Int.cast
    (round (max (55 : ℝ) (min 145 (85 + ((rand : ℝ) - 0.5) * 40)))))
  confidence := some (Int.cast
    (round (max (25 : ℝ) (min 60 (40 + (casts.length : ℝ) * 1.5)))))
  tier := .degraded

/-- `analyzeWithAI` (lines 237–573): authoritative lookup, then OpenAI, then
Gemini, then the heuristic; an exception in the heuristic region is caught by
the outer `catch` and produces the degraded fallback.  Total: no error ever
escapes to the caller. -/
noncomputable def analyzeWithAI (ud : UserData) (env : Env) : AnalysisResult :=
  match attemptAuthoritative ud env with
  | some r => r
  | none =>
    match attemptOpenai env with
    | some r => r
    | none =>
      match attemptGemini env with
      | some r => r
      | none =>
        if env.internalFault then degradedResult ud.casts env.randDegraded
        else heuristicResult ud.casts env.randHeuristic

/-! ## The POST route (lines 575–676) -/

/-- `fetchUserCasts` (lines 63–85): both the thrown non-OK status and a
transport error are caught and collapse to `[]`; `data.casts || []`. -/
def fetchUserCasts : FetchOutcome → List Post
  | .ok (some cs) => cs
  | .ok none => []
  | .httpError => []
  | .transport => []

/-- The request body after `requestSchema.safeParse` succeeded. -/
structure ScoreRequest where
  fid : ℤ
  username : Option String
  displayName : Option String
  verifiedAccounts : Option (List VAccount)

/-- The JSON body the route answers with.  `ok score confidence source`
models the success shape `{success: true, score, confidence, source, ...}`;
`err status message` the `{success: false, error}` shapes. -/
inductive RouteResponse where
  | ok (score : Option ℝ) (confidence : Option ℝ) (source : String)
  | err (status : ℕ) (message : String)

/-- Proof instrumentation: which external capabilities the invocation
reached before returning. -/
structure Calls where
  getUserFromDb : Bool
  fetchUserData : Bool
  fetchPosts : Bool
  extLookup : Bool
  openai : Bool
  gemini : Bool
  save : Bool

def noCalls : Calls := ⟨false, false, false, false, false, false, false⟩

structure PostOutcome where
  response : RouteResponse
  calls : Calls

/-- The exact 404 message of line 632. -/
def noContentMsg : String :=
  "No posts found for analysis. Please ensure the user has public posts."

/-- Lines 610–623: resolution of `userVerifiedAccounts`, together with which
lookups ran (MongoDB user cache, then the Neynar user fetch). -/
def resolveAccounts (req : ScoreRequest) (env : Env) :
    Option (List VAccount) × Bool × Bool :=
  match req.verifiedAccounts with
  | some v => (some v, false, false)
  | none =>
    match env.cachedUser with
    | some va => (va, true, false)
    | none => (some env.fetchedUserAccounts, true, true)

/-- Was the authoritative lookup attempted (a verified `x` account with a
nonempty username exists)? -/
def extLookupAttempted (ud : UserData) : Bool :=
  match findXAccount ud with
  | some a => !(a.username = "")
  | none => false

/-- The cache-miss continuation of `POST` (lines 609–664). -/
noncomputable def postFresh (req : ScoreRequest) (env : Env) : PostOutcome :=
  let acc := resolveAccounts req env
  let casts := fetchUserCasts env.fetchOutcome
  if casts.length = 0 then
    ⟨.err 404 noContentMsg,
     { getUserFromDb := acc.2.1, fetchUserData := acc.2.2, fetchPosts := true,
       extLookup := false, openai := false, gemini := false, save := false }⟩
  else
    let ud : UserData := ⟨req.username, req.displayName, casts, acc.1⟩
    let a := analyzeWithAI ud env
    ⟨.ok a.score a.confidence "api",
     { getUserFromDb := acc.2.1, fetchUserData := acc.2.2, fetchPosts := true,
       extLookup := extLookupAttempted ud,
       openai := (attemptAuthoritative ud env).isNone && env.openaiKey,
       gemini := (attemptAuthoritative ud env).isNone &&
         (attemptOpenai env).isNone && env.geminiKey,
       save := true }⟩

/-- `POST` (lines 575–676) after request validation: the cache gate
(`hasRecentIQScore(fid, 30)` then `getIQScoreFromDatabase`) answers with
`source: 'database'` and calls nothing else; otherwise the fresh pipeline
runs and answers with `source: 'api'`.  A failing cache write (line 655) is
swallowed and cannot change the response. -/
noncomputable def postRoute (req : ScoreRequest) (env : Env) : PostOutcome :=
  if env.hasRecentAt 30 then
    match env.cachedScore with
    | some c => ⟨.ok c.score c.confidence "database", noCalls⟩
    | none => postFresh req env
  else postFresh req env

/-! ## Spec-side definitions for the claims -/

/-- The highest match count among the entries. -/
def maxCount (l : List (String × ℕ)) : ℕ := (l.map Prod.snd).foldr max 0

/-- The last entry attaining the highest match count. -/
def lastArgmax (l : List (String × ℕ)) : Option (String × ℕ) :=
  (l.filter (fun p => p.2 = maxCount l)).getLast?

/-! ## Concrete inputs used by witnesses and counterexamples -/

def postA : Post := ⟨"Interesting question about this?", "", 2, 1, 0⟩

def udPlain : UserData := ⟨some "alice", none, [postA], some []⟩

/-- An environment in which every external tier fails (no credentials, the
authoritative endpoint errors) and the post fetch returns one cast. -/
def envAllFail : Env where
  hasRecentAt := fun _ => false
  cachedScore := none
  cachedUser := none
  fetchedUserAccounts := []
  fetchOutcome := .ok (some [postA])
  extLookup := .failed
  openaiKey := false
  openaiOutcome := .failed
  geminiKey := false
  geminiOutcome := .failed
  randHeuristic := 1/2
  internalFault := false
  randDegraded := 1/2
  saveFails := false

/-- A parseable provider payload that lacks the required `score` field. -/
def payloadNoScore : ProviderPayload := ⟨none, some "thoughtful posts", some 70⟩

/-- OpenAI configured and answering with `payloadNoScore`. -/
def envNoScore : Env :=
  { envAllFail with openaiKey := true, openaiOutcome := .parsed payloadNoScore }

/-- OpenAI unconfigured; Gemini configured and answering with
`payloadNoScore`. -/
def envNoScoreB : Env :=
  { envAllFail with geminiKey := true, geminiOutcome := .parsed payloadNoScore }

/-- The spec's composite formula, written as in the claim:
`0.25*(contentQualityScore + writingStyleScore + engagementScore +
topicDiversityScore)`. -/
noncomputable def specComposite (casts : List Post) : ℝ :=
  0.25 * (contentQualityScore casts + writingStyleScore casts +
    engagementScore casts + topicDiversityScore casts)

/-- The all-fail environment with a faulting heuristic. -/
def envFault : Env := { envAllFail with internalFault := true }

/-- OpenAI and Gemini both configured but failing with transport errors. -/
def envTransport : Env :=
  { envAllFail with
    openaiKey := true
    openaiOutcome := .failed
    geminiKey := true
    geminiOutcome := .failed }

/-- A single empty post: every topic category gets a match count of 0. -/
def tieCasts : List Post := [⟨"", "", 0, 0, 0⟩]

/-- A validated request body. -/
def reqPlain : ScoreRequest := ⟨1, some "alice", none, some []⟩

/-- The all-fail environment whose cast fetch returns an empty list. -/
def envEmpty : Env := { envAllFail with fetchOutcome := .ok (some []) }

def cachedEntry : CachedScore := ⟨some 100, some 80⟩

/-- A fresh cache hit. -/
def envHit : Env :=
  { envAllFail with
    hasRecentAt := fun _ => true
    cachedScore := some cachedEntry }

/-- The `UserData` value the fresh path hands to `analyzeWithAI`. -/
def freshUD (req : ScoreRequest) (env : Env) : UserData :=
  ⟨req.username, req.displayName, fetchUserCasts env.fetchOutcome,
   (resolveAccounts req env).1⟩

/-- The `source` field of a response, when the response is a success. -/
def RouteResponse.sourceOf : RouteResponse → Option String
  | .ok _ _ src => some src
  | .err _ _ => none

/-! ## General lemmas -/

/-- `round` (`⌊x + 1/2⌋`, i.e. JS `Math.round`) is monotone. -/
theorem roundMono {x y : ℝ} (h : x ≤ y) : round x ≤ round y := by
  rw [round_eq, round_eq]
  exact Int.floor_le_floor (by linarith)

/-- Rounding a value lying between two integers stays between them. -/
theorem roundBounds {a b : ℤ} {x : ℝ} (ha : (a : ℝ) ≤ x) (hb : x ≤ (b : ℝ)) :
    a ≤ round x ∧ round x ≤ b := by
  refine ⟨?_, ?_⟩
  · have h := roundMono ha
    rwa [round_intCast] at h
  · have h := roundMono hb
    rwa [round_intCast] at h

/-- Rounding commutes with clamping to an integer interval:
`round (max a (min b x)) = max a (min b (round x))`. -/
theorem roundClamp (a b : ℤ) (hab : a ≤ b) (x : ℝ) :
    round (max (a : ℝ) (min (b : ℝ) x)) = max a (min b (round x)) := by
  have habR : (a : ℝ) ≤ (b : ℝ) := by exact_mod_cast hab
  rcases le_total x (a : ℝ) with h | h
  · have hr : round x ≤ a := by
      have h2 := roundMono h
      rwa [round_intCast] at h2
    rw [min_eq_right (le_trans h habR), max_eq_left h, round_intCast,
      min_eq_right (le_trans hr hab), max_eq_left hr]
  · rcases le_total x (b : ℝ) with h2 | h2
    · have hra : a ≤ round x := by
        have h3 := roundMono h
        rwa [round_intCast] at h3
      have hrb : round x ≤ b := by
        have h3 := roundMono h2
        rwa [round_intCast] at h3
      rw [min_eq_right h2, max_eq_right h, min_eq_right hrb, max_eq_right hra]
    · have hrb : b ≤ round x := by
        have h3 := roundMono h2
        rwa [round_intCast] at h3
      rw [min_eq_left h2, max_eq_right habR, round_intCast,
        min_eq_left hrb, max_eq_right hab]

/-! ## Characterisation of the `primaryTopic` fold

Spec-side definitions (following the amended wording of the tie-break):
the maximum match count over the entries, and the **last** entry attaining
it. -/

theorem maxCount_cons (p : String × ℕ) (l : List (String × ℕ)) :
    maxCount (p :: l) = max p.2 (maxCount l) := rfl

theorem lastArgmax_pickTopic (a b : String × ℕ) (l : List (String × ℕ)) :
    lastArgmax (pickTopic a b :: l) = lastArgmax (a :: b :: l) := by
  by_cases h : a.2 > b.2
  · have hpt : pickTopic a b = a := if_pos h
    have hM : maxCount (a :: l) = maxCount (a :: b :: l) := by
      rw [maxCount_cons, maxCount_cons, maxCount_cons]
      omega
    have hbM : ¬(b.2 = maxCount (a :: b :: l)) := by
      rw [maxCount_cons]
      omega
    rw [hpt]
    unfold lastArgmax
    rw [hM]
    congr 1
    rw [List.filter_cons, List.filter_cons, List.filter_cons]
    simp only [decide_eq_true_eq, hbM, if_false]
  · have hpt : pickTopic a b = b := if_neg h
    have hM : maxCount (b :: l) = maxCount (a :: b :: l) := by
      rw [maxCount_cons, maxCount_cons, maxCount_cons]
      omega
    rw [hpt]
    unfold lastArgmax
    rw [hM]
    by_cases ha : a.2 = maxCount (a :: b :: l)
    · have hb : b.2 = maxCount (a :: b :: l) := by
        have hba : a.2 ≤ b.2 := by omega
        have h1 : b.2 ≤ maxCount (a :: b :: l) := by
          rw [maxCount_cons, maxCount_cons]
          omega
        omega
      rw [List.filter_cons (x := a), List.filter_cons (x := b)]
      simp only [decide_eq_true_eq, ha, if_true, hb]
      rw [List.getLast?_cons_cons]
    · rw [List.filter_cons (x := a)]
      simp only [decide_eq_true_eq, ha, if_false]

/-- The source's `reduce((a, b) => a[1] > b[1] ? a : b)` computes the last
entry attaining the highest count. -/
theorem foldl_pickTopic_eq_lastArgmax (l : List (String × ℕ))
    (a : String × ℕ) : some (l.foldl pickTopic a) = lastArgmax (a :: l) := by
  induction l generalizing a with
  | nil =>
    unfold lastArgmax
    simp [maxCount_cons, maxCount]
  | cons b l ih =>
    rw [List.foldl_cons, ih (pickTopic a b), lastArgmax_pickTopic]

/-! ## Inversion and bounds lemmas for the tiers -/

theorem attemptAuthoritative_inv {ud : UserData} {env : Env}
    {r : AnalysisResult} (h : attemptAuthoritative ud env = some r) :
    ∃ iq : ℚ, r = ⟨some (max 55 (min 145 (iq : ℝ))), some 85,
      .authoritative⟩ := by
  unfold attemptAuthoritative at h
  rcases hx : findXAccount ud with _ | acct
  · simp only [hx] at h
    exact Option.noConfusion h
  · simp only [hx] at h
    by_cases hu : acct.username = ""
    · rw [if_pos hu] at h
      exact Option.noConfusion h
    · rw [if_neg hu] at h
      rcases he : env.extLookup with iq | _
      · rcases iq with _ | q
        · simp only [he] at h
          exact Option.noConfusion h
        · simp only [he] at h
          by_cases hq : q = 0
          · rw [if_pos hq] at h
            exact Option.noConfusion h
          · rw [if_neg hq] at h
            exact ⟨q, (Option.some.inj h).symm⟩
      · simp only [he] at h
        exact Option.noConfusion h

theorem attemptOpenai_inv {env : Env} {r : AnalysisResult}
    (h : attemptOpenai env = some r) :
    ∃ p : ProviderPayload, env.openaiOutcome = .parsed p ∧
      r = ⟨p.score.map (fun q => max 55 (min 145 ((q : ℚ) : ℝ))),
        p.confidence.map (fun q => max 0 (min 100 ((q : ℚ) : ℝ))),
        .providerA⟩ := by
  unfold attemptOpenai at h
  by_cases hk : env.openaiKey
  · rw [if_pos hk] at h
    rcases ho : env.openaiOutcome with p | _
    · simp only [ho] at h
      exact ⟨p, rfl, (Option.some.inj h).symm⟩
    · simp only [ho] at h
      exact Option.noConfusion h
  · rw [if_neg hk] at h
    exact Option.noConfusion h

theorem attemptGemini_inv {env : Env} {r : AnalysisResult}
    (h : attemptGemini env = some r) :
    ∃ p : ProviderPayload, env.geminiOutcome = .parsed p ∧
      r = ⟨p.score.map (fun q => max 55 (min 145 ((q : ℚ) : ℝ))),
        p.confidence.map (fun q => max 0 (min 100 ((q : ℚ) : ℝ))),
        .providerB⟩ := by
  unfold attemptGemini at h
  by_cases hk : env.geminiKey
  · rw [if_pos hk] at h
    rcases ho : env.geminiOutcome with p | _
    · simp only [ho] at h
      exact ⟨p, rfl, (Option.some.inj h).symm⟩
    · simp only [ho] at h
      exact Option.noConfusion h
  · rw [if_neg hk] at h
    exact Option.noConfusion h

/-- The heuristic tier always produces an in-range score and confidence. -/
theorem heuristicResult_bounds (casts : List Post) (rand : ℚ) :
    ∃ s c : ℝ, (heuristicResult casts rand).score = some s ∧
      55 ≤ s ∧ s ≤ 145 ∧
      (heuristicResult casts rand).confidence = some c ∧
      0 ≤ c ∧ c ≤ 100 := by
  refine ⟨_, _, rfl, ?_, ?_, rfl, ?_, ?_⟩
  · exact_mod_cast le_max_left (55 : ℤ) _
  · exact_mod_cast max_le (by norm_num) (min_le_left (145 : ℤ) _)
  all_goals
    have ha : ((30 : ℤ) : ℝ) ≤ max (30 : ℝ)
        (min 85 (50 + (casts.length : ℝ) * 2 +
          comprehensiveScore casts * 0.3)) := by
      push_cast
      exact le_max_left _ _
    have hb : max (30 : ℝ) (min 85 (50 + (casts.length : ℝ) * 2 +
        comprehensiveScore casts * 0.3)) ≤ ((85 : ℤ) : ℝ) := by
      push_cast
      exact max_le (by norm_num) (min_le_left _ _)
    have h := roundBounds ha hb
  · have h0 : (0 : ℤ) ≤ round (max (30 : ℝ)
        (min 85 (50 + (casts.length : ℝ) * 2 +
          comprehensiveScore casts * 0.3))) := by omega
    exact_mod_cast h0
  · have h1 : round (max (30 : ℝ)
        (min 85 (50 + (casts.length : ℝ) * 2 +
          comprehensiveScore casts * 0.3))) ≤ (100 : ℤ) := by omega
    exact_mod_cast h1

/-- The degraded fallback always produces an in-range score and
confidence. -/
theorem degradedResult_bounds (casts : List Post) (rand : ℚ) :
    ∃ s c : ℝ, (degradedResult casts rand).score = some s ∧
      55 ≤ s ∧ s ≤ 145 ∧
      (degradedResult casts rand).confidence = some c ∧
      0 ≤ c ∧ c ≤ 100 := by
  have hsa : ((55 : ℤ) : ℝ) ≤ max (55 : ℝ)
      (min 145 (85 + ((rand : ℝ) - 0.5) * 40)) := by
    push_cast
    exact le_max_left _ _
  have hsb : max (55 : ℝ) (min 145 (85 + ((rand : ℝ) - 0.5) * 40)) ≤
      ((145 : ℤ) : ℝ) := by
    push_cast
    exact max_le (by norm_num) (min_le_left _ _)
  have hs := roundBounds hsa hsb
  have hca : ((25 : ℤ) : ℝ) ≤ max (25 : ℝ)
      (min 60 (40 + (casts.length : ℝ) * 1.5)) := by
    push_cast
    exact le_max_left _ _
  have hcb : max (25 : ℝ) (min 60 (40 + (casts.length : ℝ) * 1.5)) ≤
      ((60 : ℤ) : ℝ) := by
    push_cast
    exact max_le (by norm_num) (min_le_left _ _)
  have hc := roundBounds hca hcb
  refine ⟨_, _, rfl, ?_, ?_, rfl, ?_, ?_⟩
  · exact_mod_cast hs.1
  · exact_mod_cast hs.2
  · have h0 : (0 : ℤ) ≤ round (max (25 : ℝ)
        (min 60 (40 + (casts.length : ℝ) * 1.5))) := by omega
    exact_mod_cast h0
  · have h1 : round (max (25 : ℝ)
        (min 60 (40 + (casts.length : ℝ) * 1.5))) ≤ (100 : ℤ) := by omega
    exact_mod_cast h1

/-! ## C1 -/

/-- C1, counterexample: the claim "every path yields `55 ≤ score ≤ 145`" is
false.  On the provider-A path with a parseable payload lacking the `score`
field, the code returns `Math.max(55, Math.min(145, undefined)) = NaN`
(modelled `none`), which satisfies no bound. -/
theorem c1_counterexample :
    ¬ (∃ s : ℝ, (analyzeWithAI udPlain envNoScore).score = some s ∧
        55 ≤ s ∧ s ≤ 145) := by
  rintro ⟨s, hs, -, -⟩
  have h : (analyzeWithAI udPlain envNoScore).score = none := rfl
  rw [h] at hs
  exact Option.noConfusion hs

/-- C1, amended: for every non-empty PostSet and every path (authoritative
lookup, provider A, provider B, heuristic, degraded), **provided every
parsed provider payload carries its numeric `score` and `confidence`
fields**, the returned result satisfies `55 ≤ score ≤ 145` and
`0 ≤ confidence ≤ 100`; a payload with a missing field instead yields `NaN`
for that field. -/
theorem c1_theorem (ud : UserData) (env : Env) (_hcasts : ud.casts ≠ [])
    (hO : ∀ p, env.openaiOutcome = .parsed p →
      p.score.isSome ∧ p.confidence.isSome)
    (hG : ∀ p, env.geminiOutcome = .parsed p →
      p.score.isSome ∧ p.confidence.isSome) :
    ∃ s c : ℝ, (analyzeWithAI ud env).score = some s ∧ 55 ≤ s ∧ s ≤ 145 ∧
      (analyzeWithAI ud env).confidence = some c ∧ 0 ≤ c ∧ c ≤ 100 := by
  rcases hAA : attemptAuthoritative ud env with _ | r
  · rcases hOA : attemptOpenai env with _ | r
    · rcases hGA : attemptGemini env with _ | r
      · cases hf : env.internalFault
        · have hres : analyzeWithAI ud env =
              heuristicResult ud.casts env.randHeuristic := by
            unfold analyzeWithAI
            rw [hAA, hOA, hGA, hf]
            rfl
          rw [hres]
          exact heuristicResult_bounds _ _
        · have hres : analyzeWithAI ud env =
              degradedResult ud.casts env.randDegraded := by
            unfold analyzeWithAI
            rw [hAA, hOA, hGA, hf]
            rfl
          rw [hres]
          exact degradedResult_bounds _ _
      · have hres : analyzeWithAI ud env = r := by
          unfold analyzeWithAI
          rw [hAA, hOA, hGA]
        obtain ⟨p, hp, hr⟩ := attemptGemini_inv hGA
        obtain ⟨hps, hpc⟩ := hG p hp
        obtain ⟨q, hq⟩ := Option.isSome_iff_exists.mp hps
        obtain ⟨q2, hq2⟩ := Option.isSome_iff_exists.mp hpc
        rw [hres, hr]
        refine ⟨max 55 (min 145 ((q : ℚ) : ℝ)),
          max 0 (min 100 ((q2 : ℚ) : ℝ)), ?_, le_max_left _ _,
          max_le (by norm_num) (min_le_left _ _), ?_, le_max_left _ _,
          max_le (by norm_num) (min_le_left _ _)⟩
        · simp [hq]
        · simp [hq2]
    · have hres : analyzeWithAI ud env = r := by
        unfold analyzeWithAI
        rw [hAA, hOA]
      obtain ⟨p, hp, hr⟩ := attemptOpenai_inv hOA
      obtain ⟨hps, hpc⟩ := hO p hp
      obtain ⟨q, hq⟩ := Option.isSome_iff_exists.mp hps
      obtain ⟨q2, hq2⟩ := Option.isSome_iff_exists.mp hpc
      rw [hres, hr]
      refine ⟨max 55 (min 145 ((q : ℚ) : ℝ)),
        max 0 (min 100 ((q2 : ℚ) : ℝ)), ?_, le_max_left _ _,
        max_le (by norm_num) (min_le_left _ _), ?_, le_max_left _ _,
        max_le (by norm_num) (min_le_left _ _)⟩
      · simp [hq]
      · simp [hq2]
  · have hres : analyzeWithAI ud env = r := by
      unfold analyzeWithAI
      rw [hAA]
    obtain ⟨iq, hr⟩ := attemptAuthoritative_inv hAA
    rw [hres, hr]
    exact ⟨_, _, rfl, le_max_left _ _,
      max_le (by norm_num) (min_le_left _ _), rfl, by norm_num, by norm_num⟩

/-- C1, witness at a concrete input. -/
theorem c1_witness :
    udPlain.casts ≠ [] ∧
    ∃ s c : ℝ, (analyzeWithAI udPlain envAllFail).score = some s ∧
      55 ≤ s ∧ s ≤ 145 ∧
      (analyzeWithAI udPlain envAllFail).confidence = some c ∧
      0 ≤ c ∧ c ≤ 100 :=
  ⟨by decide, c1_theorem udPlain envAllFail (by decide)
    (fun p hp => ProviderOutcome.noConfusion hp)
    (fun p hp => ProviderOutcome.noConfusion hp)⟩

/-! ## C3 -/

/-- C3: on a cache miss, when the authoritative lookup does not produce a
result and both providers fail or are unconfigured (and the heuristic does
not fault), the heuristic's score is exactly
`clamp(55,145, round(70 + 0.6*composite + 0.2*postCount + jitter))` with
`composite = 0.25*(contentQualityScore + writingStyleScore +
engagementScore + topicDiversityScore)` and
`jitter = (rand - 0.5)*15`, and its confidence is
`clamp(30,85, round(50 + 2*postCount + 0.3*composite))`; with the jitter
draw fixed, this is a deterministic function of the PostSet. -/
theorem c3_theorem (ud : UserData) (env : Env) (_hcasts : ud.casts ≠ [])
    (hA : attemptAuthoritative ud env = none)
    (hO : attemptOpenai env = none)
    (hG : attemptGemini env = none)
    (hf : env.internalFault = false) :
    (analyzeWithAI ud env).score = some (Int.cast (max 55 (min 145 (round
      ((70 : ℝ) + 0.6 * specComposite ud.casts +
        0.2 * (ud.casts.length : ℝ) +
        ((env.randHeuristic : ℝ) - 0.5) * 15))))) ∧
    (analyzeWithAI ud env).confidence = some (Int.cast (max 30 (min 85 (round
      ((50 : ℝ) + 2 * (ud.casts.length : ℝ) +
        0.3 * specComposite ud.casts))))) := by
  have hres : analyzeWithAI ud env =
      heuristicResult ud.casts env.randHeuristic := by
    unfold analyzeWithAI
    rw [hA, hO, hG, hf]
    rfl
  rw [hres]
  constructor
  · have harg : baseScore ud.casts + ((env.randHeuristic : ℝ) - 0.5) * 15 =
        (70 : ℝ) + 0.6 * specComposite ud.casts +
          0.2 * (ud.casts.length : ℝ) +
          ((env.randHeuristic : ℝ) - 0.5) * 15 := by
      unfold baseScore comprehensiveScore specComposite
      ring
    simp only [heuristicResult, harg]
  · have harg : (50 : ℝ) + (ud.casts.length : ℝ) * 2 +
        comprehensiveScore ud.casts * 0.3 =
        (50 : ℝ) + 2 * (ud.casts.length : ℝ) +
          0.3 * specComposite ud.casts := by
      unfold comprehensiveScore specComposite
      ring
    have hcomm := roundClamp 30 85 (by norm_num)
      ((50 : ℝ) + 2 * (ud.casts.length : ℝ) + 0.3 * specComposite ud.casts)
    push_cast at hcomm
    simp only [heuristicResult, harg, hcomm]

/-- C3, witness at a concrete input. -/
theorem c3_witness :
    udPlain.casts ≠ [] ∧
    (analyzeWithAI udPlain envAllFail).score =
      some (Int.cast (max 55 (min 145 (round
        ((70 : ℝ) + 0.6 * specComposite udPlain.casts +
          0.2 * (udPlain.casts.length : ℝ) +
          ((envAllFail.randHeuristic : ℝ) - 0.5) * 15))))) ∧
    (analyzeWithAI udPlain envAllFail).confidence =
      some (Int.cast (max 30 (min 85 (round
        ((50 : ℝ) + 2 * (udPlain.casts.length : ℝ) +
          0.3 * specComposite udPlain.casts))))) :=
  ⟨by decide,
    (c3_theorem udPlain envAllFail (by decide) rfl rfl rfl rfl).1,
    (c3_theorem udPlain envAllFail (by decide) rfl rfl rfl rfl).2⟩

/-! ## C4 -/

/-- C4: errors in the lookup/provider tiers never surface (their outcomes
only select the next tier), and an internal fault in the heuristic
computation reaches the degraded fallback, which still returns a result
with a bounded score and confidence. -/
theorem c4_theorem (ud : UserData) (env : Env) (_hcasts : ud.casts ≠ [])
    (hf : env.internalFault = true)
    (hA : attemptAuthoritative ud env = none)
    (hO : attemptOpenai env = none)
    (hG : attemptGemini env = none) :
    (analyzeWithAI ud env).tier = .degraded ∧
    ∃ s c : ℝ, (analyzeWithAI ud env).score = some s ∧ 55 ≤ s ∧ s ≤ 145 ∧
      (analyzeWithAI ud env).confidence = some c ∧ 0 ≤ c ∧ c ≤ 100 := by
  have hres : analyzeWithAI ud env =
      degradedResult ud.casts env.randDegraded := by
    unfold analyzeWithAI
    rw [hA, hO, hG, hf]
    rfl
  rw [hres]
  exact ⟨rfl, degradedResult_bounds _ _⟩

/-- C4, witness at a concrete input. -/
theorem c4_witness :
    udPlain.casts ≠ [] ∧ envFault.internalFault = true ∧
    ((analyzeWithAI udPlain envFault).tier = .degraded ∧
      ∃ s c : ℝ, (analyzeWithAI udPlain envFault).score = some s ∧
        55 ≤ s ∧ s ≤ 145 ∧
        (analyzeWithAI udPlain envFault).confidence = some c ∧
        0 ≤ c ∧ c ≤ 100) :=
  ⟨by decide, rfl, c4_theorem udPlain envFault (by decide) rfl rfl rfl rfl⟩

/-! ## C7 -/

/-- C7, counterexample: a parseable payload missing the required `score`
field is **not** treated like a transport failure, on either provider
tier.  With the payload, the result comes from the provider tier that
parsed it (with a `NaN` score); with a transport failure in its place, the
pipeline instead falls through to the heuristic tier. -/
theorem c7_counterexample :
    (analyzeWithAI udPlain envNoScore).tier = .providerA ∧
    (analyzeWithAI udPlain envNoScore).score = none ∧
    (analyzeWithAI udPlain
      { envNoScore with openaiOutcome := .failed }).tier = .heuristic ∧
    (analyzeWithAI udPlain envNoScoreB).tier = .providerB ∧
    (analyzeWithAI udPlain envNoScoreB).score = none ∧
    (analyzeWithAI udPlain
      { envNoScoreB with geminiOutcome := .failed }).tier = .heuristic :=
  ⟨rfl, rfl, rfl, rfl, rfl, rfl⟩

/-- C7, amended: if either provider tier is reached and returns a parseable
JSON payload, the orchestrator returns a result built from that payload
even when required fields are missing (each missing numeric field becomes
`NaN`); it does not fall through to the next tier.  The first conjunct is
the OpenAI tier, the second the Gemini tier (reached when the OpenAI tier
produced nothing). -/
theorem c7_theorem (ud : UserData) (env : Env) (p : ProviderPayload)
    (hA : attemptAuthoritative ud env = none) :
    (env.openaiKey = true → env.openaiOutcome = .parsed p →
      analyzeWithAI ud env =
        ⟨p.score.map (fun q => max 55 (min 145 ((q : ℚ) : ℝ))),
         p.confidence.map (fun q => max 0 (min 100 ((q : ℚ) : ℝ))),
         .providerA⟩) ∧
    (attemptOpenai env = none → env.geminiKey = true →
      env.geminiOutcome = .parsed p →
      analyzeWithAI ud env =
        ⟨p.score.map (fun q => max 55 (min 145 ((q : ℚ) : ℝ))),
         p.confidence.map (fun q => max 0 (min 100 ((q : ℚ) : ℝ))),
         .providerB⟩) := by
  constructor
  · intro hk hp
    have hO : attemptOpenai env =
        some ⟨p.score.map (fun q => max 55 (min 145 ((q : ℚ) : ℝ))),
          p.confidence.map (fun q => max 0 (min 100 ((q : ℚ) : ℝ))),
          .providerA⟩ := by
      simp [attemptOpenai, hk, hp]
    unfold analyzeWithAI
    rw [hA, hO]
  · intro hO hk hp
    have hG : attemptGemini env =
        some ⟨p.score.map (fun q => max 55 (min 145 ((q : ℚ) : ℝ))),
          p.confidence.map (fun q => max 0 (min 100 ((q : ℚ) : ℝ))),
          .providerB⟩ := by
      simp [attemptGemini, hk, hp]
    unfold analyzeWithAI
    rw [hA, hO, hG]

/-- C7, witness at concrete inputs, one per provider tier. -/
theorem c7_witness :
    analyzeWithAI udPlain envNoScore =
      ⟨payloadNoScore.score.map (fun q => max 55 (min 145 ((q : ℚ) : ℝ))),
       payloadNoScore.confidence.map
         (fun q => max 0 (min 100 ((q : ℚ) : ℝ))),
       .providerA⟩ ∧
    analyzeWithAI udPlain envNoScoreB =
      ⟨payloadNoScore.score.map (fun q => max 55 (min 145 ((q : ℚ) : ℝ))),
       payloadNoScore.confidence.map
         (fun q => max 0 (min 100 ((q : ℚ) : ℝ))),
       .providerB⟩ :=
  ⟨(c7_theorem udPlain envNoScore payloadNoScore rfl).1 rfl rfl,
   (c7_theorem udPlain envNoScoreB payloadNoScore rfl).2 rfl rfl rfl⟩

/-! ## C8 -/

/-- A `lastArgmax` result is an entry of the list attaining the maximum. -/
theorem lastArgmax_spec {l : List (String × ℕ)} {p : String × ℕ}
    (h : lastArgmax l = some p) : p ∈ l ∧ p.2 = maxCount l := by
  unfold lastArgmax at h
  have h2 : p ∈ (l.filter fun q => decide (q.2 = maxCount l)).getLast? :=
    Option.mem_def.mpr h
  obtain ⟨hne, hp⟩ := List.mem_getLast?_eq_getLast h2
  have h3 : p ∈ l.filter fun q => decide (q.2 = maxCount l) :=
    hp ▸ List.getLast_mem hne
  have h4 := List.mem_filter.mp h3
  exact ⟨h4.1, of_decide_eq_true h4.2⟩

/-- C8, counterexample: when every category ties (count 0), the source's
`reduce((a, b) => a[1] > b[1] ? a : b)` keeps the **later** entry on ties,
so the primary topic is `science` (the last-declared category), not `tech`
(the first-declared one) as the claim states. -/
theorem c8_counterexample :
    primaryTopic tieCasts = "science" ∧
    (∀ p ∈ topicEntries tieCasts, p.2 = 0) ∧
    ("science" : String) ≠ "tech" := by
  refine ⟨by decide, by decide, by decide⟩

/-- C8, amended: the primary topic is the category with the highest
keyword-match count, and on ties the **last**-declared category in the
fixed enumeration order (tech, finance, politics, culture, sports, humor,
philosophy, science) is chosen: `primaryTopic` is the name of the last
entry of `topicEntries` attaining the maximal count. -/
theorem c8_theorem (casts : List Post) :
    ∃ p : String × ℕ, lastArgmax (topicEntries casts) = some p ∧
      primaryTopic casts = p.1 ∧ p ∈ topicEntries casts ∧
      p.2 = maxCount (topicEntries casts) := by
  rcases hte : topicEntries casts with _ | ⟨e, rest⟩
  · exact absurd hte (by simp [topicEntries, topicList])
  · have hlast : lastArgmax (e :: rest) = some (rest.foldl pickTopic e) :=
      (foldl_pickTopic_eq_lastArgmax rest e).symm
    have hspec := lastArgmax_spec hlast
    refine ⟨rest.foldl pickTopic e, hlast, ?_, hspec.1, hspec.2⟩
    unfold primaryTopic
    rw [hte]

/-! ## Route-level helper lemmas -/

/-- On a cache miss (the recency gate answers `false`, or it answers `true`
but no cached row exists), `POST` continues with the fresh pipeline. -/
theorem postRoute_cacheMiss (req : ScoreRequest) (env : Env)
    (hmiss : env.hasRecentAt 30 = false ∨ env.cachedScore = none) :
    postRoute req env = postFresh req env := by
  rcases hmiss with h | h
  · simp [postRoute, h]
  · cases h1 : env.hasRecentAt 30
    · simp [postRoute, h1]
    · simp [postRoute, h1, h]

/-- The fresh pipeline on an empty fetched PostSet answers with the 404
`no content` error. -/
theorem postFresh_noContent (req : ScoreRequest) (env : Env)
    (hempty : fetchUserCasts env.fetchOutcome = []) :
    (postFresh req env).response = .err 404 noContentMsg := by
  simp [postFresh, hempty]

/-- The fresh pipeline on a non-empty fetched PostSet answers with the
analysis result and `source: 'api'`. -/
theorem postFresh_response (req : ScoreRequest) (env : Env)
    (hne : fetchUserCasts env.fetchOutcome ≠ []) :
    (postFresh req env).response =
      .ok (analyzeWithAI (freshUD req env) env).score
        (analyzeWithAI (freshUD req env) env).confidence "api" := by
  simp only [postFresh]
  rw [if_neg (fun hl => hne (List.length_eq_zero.mp hl))]
  rfl

/-- The fresh pipeline on a non-empty fetched PostSet attempts the cache
write. -/
theorem postFresh_save (req : ScoreRequest) (env : Env)
    (hne : fetchUserCasts env.fetchOutcome ≠ []) :
    (postFresh req env).calls.save = true := by
  simp only [postFresh]
  rw [if_neg (fun hl => hne (List.length_eq_zero.mp hl))]

/-- A successful fresh-pipeline response always carries `source = "api"`. -/
theorem postFresh_source (req : ScoreRequest) (env : Env)
    {s c : Option ℝ} {src : String}
    (h : (postFresh req env).response = .ok s c src) : src = "api" := by
  by_cases h3 : fetchUserCasts env.fetchOutcome = []
  · exact RouteResponse.noConfusion
      ((postFresh_noContent req env h3).symm.trans h)
  · have h4 := (postFresh_response req env h3).symm.trans h
    injection h4 with h5 h6 h7
    exact h7.symm

/-- A cache hit short-circuits `POST` entirely. -/
theorem postRoute_cacheHit (req : ScoreRequest) (env : Env)
    (entry : CachedScore) (h1 : env.hasRecentAt 30 = true)
    (h2 : env.cachedScore = some entry) :
    postRoute req env =
      ⟨.ok entry.score entry.confidence "database", noCalls⟩ := by
  unfold postRoute
  rw [h1, h2]
  rfl

/-! ## C2 -/

/-- C2: with no valid cache entry and an empty fetched PostSet, `Score`
answers the `no_content` 404 error — by construction of `RouteResponse`
this is not a ScoreResult, so no degraded or heuristic score is
fabricated. -/
theorem c2_theorem (req : ScoreRequest) (env : Env)
    (hmiss : env.hasRecentAt 30 = false ∨ env.cachedScore = none)
    (hempty : fetchUserCasts env.fetchOutcome = []) :
    (postRoute req env).response = .err 404 noContentMsg := by
  rw [postRoute_cacheMiss req env hmiss]
  exact postFresh_noContent req env hempty

/-- C2, witness at a concrete input. -/
theorem c2_witness :
    (envEmpty.hasRecentAt 30 = false ∨ envEmpty.cachedScore = none) ∧
    fetchUserCasts envEmpty.fetchOutcome = [] ∧
    (postRoute reqPlain envEmpty).response = .err 404 noContentMsg :=
  ⟨Or.inl rfl, rfl, c2_theorem reqPlain envEmpty (Or.inl rfl) rfl⟩

/-! ## C5 -/

/-- C5: when the store holds a fresh row (the 30-day recency gate answers
`true` and the row exists), `POST` returns the cached payload with
`source: 'database'` and reaches none of the post fetch, the authoritative
lookup, or either LLM provider. -/
theorem c5_theorem (req : ScoreRequest) (env : Env) (entry : CachedScore)
    (h1 : env.hasRecentAt 30 = true) (h2 : env.cachedScore = some entry) :
    (postRoute req env).response =
      .ok entry.score entry.confidence "database" ∧
    (postRoute req env).calls.fetchPosts = false ∧
    (postRoute req env).calls.extLookup = false ∧
    (postRoute req env).calls.openai = false ∧
    (postRoute req env).calls.gemini = false := by
  rw [postRoute_cacheHit req env entry h1 h2]
  exact ⟨rfl, rfl, rfl, rfl, rfl⟩

/-- C5, witness at a concrete input. -/
theorem c5_witness :
    envHit.hasRecentAt 30 = true ∧ envHit.cachedScore = some cachedEntry ∧
    ((postRoute reqPlain envHit).response =
        .ok cachedEntry.score cachedEntry.confidence "database" ∧
      (postRoute reqPlain envHit).calls.fetchPosts = false ∧
      (postRoute reqPlain envHit).calls.extLookup = false ∧
      (postRoute reqPlain envHit).calls.openai = false ∧
      (postRoute reqPlain envHit).calls.gemini = false) :=
  ⟨rfl, rfl, c5_theorem reqPlain envHit cachedEntry rfl rfl⟩

/-! ## C6 -/

/-- C6, counterexample: with both providers configured and failing with
transport errors, the fresh heuristic result is returned but the `source`
field of the response is `'api'`, not `'heuristic'` — the route only ever
emits `'database'` or `'api'`, never a tier name. -/
theorem c6_counterexample :
    (postRoute reqPlain envTransport).response.sourceOf = some "api" ∧
    (analyzeWithAI (freshUD reqPlain envTransport) envTransport).tier =
      .heuristic ∧
    ("api" : String) ≠ "heuristic" := by
  refine ⟨rfl, rfl, by decide⟩

/-- C6, amended: the `source` field of a successful response distinguishes
only the cache from fresh computation: it is always either `"database"`
(cache hit) or `"api"` (any freshly computed result, whichever tier
produced it). -/
theorem c6_theorem (req : ScoreRequest) (env : Env) {s c : Option ℝ}
    {src : String} (h : (postRoute req env).response = .ok s c src) :
    src = "database" ∨ src = "api" := by
  by_cases h1 : env.hasRecentAt 30 = true
  · rcases h2 : env.cachedScore with _ | entry
    · rw [postRoute_cacheMiss req env (Or.inr h2)] at h
      exact Or.inr (postFresh_source req env h)
    · left
      have hpr : (postRoute req env).response =
          .ok entry.score entry.confidence "database" := by
        rw [postRoute_cacheHit req env entry h1 h2]
      have h4 := hpr.symm.trans h
      injection h4 with h5 h6 h7
      exact h7.symm
  · have h1f : env.hasRecentAt 30 = false := by
      revert h1
      cases env.hasRecentAt 30 <;> simp
    rw [postRoute_cacheMiss req env (Or.inl h1f)] at h
    exact Or.inr (postFresh_source req env h)

/-- C6, witness at a concrete input. -/
theorem c6_witness :
    (postRoute reqPlain envHit).response =
      .ok cachedEntry.score cachedEntry.confidence "database" ∧
    ("database" = "database" ∨ ("database" : String) = "api") :=
  ⟨by rw [postRoute_cacheHit reqPlain envHit cachedEntry rfl rfl],
   c6_theorem reqPlain envHit
     (by rw [postRoute_cacheHit reqPlain envHit cachedEntry rfl rfl])⟩

/-! ## C9 -/

/-- C9: the response of `POST` does not depend on whether the cache write
fails, and on the successful fresh path it is the computed analysis result
with `source: 'api'` — a store-write failure never fails the request. -/
theorem c9_theorem (req : ScoreRequest) (env : Env)
    (hmiss : env.hasRecentAt 30 = false ∨ env.cachedScore = none)
    (hne : fetchUserCasts env.fetchOutcome ≠ []) :
    (postRoute req { env with saveFails := true }).response =
      (postRoute req { env with saveFails := false }).response ∧
    (postRoute req { env with saveFails := true }).response =
      .ok (analyzeWithAI (freshUD req env) env).score
        (analyzeWithAI (freshUD req env) env).confidence "api" ∧
    (postRoute req { env with saveFails := true }).calls.save = true := by
  have hkey : ∀ b, postRoute req { env with saveFails := b } =
      postRoute req env := by
    intro b
    cases env
    rfl
  rw [hkey, hkey, hkey]
  refine ⟨rfl, ?_, ?_⟩
  · rw [postRoute_cacheMiss req env hmiss]
    exact postFresh_response req env hne
  · rw [postRoute_cacheMiss req env hmiss]
    exact postFresh_save req env hne

/-- C9, witness at a concrete input. -/
theorem c9_witness :
    (envAllFail.hasRecentAt 30 = false ∨ envAllFail.cachedScore = none) ∧
    fetchUserCasts envAllFail.fetchOutcome ≠ [] ∧
    ((postRoute reqPlain { envAllFail with saveFails := true }).response =
        (postRoute reqPlain { envAllFail with saveFails := false }).response ∧
      (postRoute reqPlain { envAllFail with saveFails := true }).response =
        .ok (analyzeWithAI (freshUD reqPlain envAllFail) envAllFail).score
          (analyzeWithAI (freshUD reqPlain envAllFail) envAllFail).confidence
          "api" ∧
      (postRoute reqPlain
        { envAllFail with saveFails := true }).calls.save = true) :=
  ⟨Or.inl rfl, by decide,
   c9_theorem reqPlain envAllFail (Or.inl rfl) (by decide)⟩

/-! ## C10 -/

/-- C10: a transport error (or a non-OK status) in the cast fetch collapses
to an empty PostSet inside `fetchUserCasts`, so on a cache miss `POST`
answers exactly the same `no_content` 404 error as for a genuinely empty
PostSet — the failure is indistinguishable at the public interface and no
scoring tier runs. -/
theorem c10_theorem (req : ScoreRequest) (env : Env)
    (hmiss : env.hasRecentAt 30 = false ∨ env.cachedScore = none) :
    fetchUserCasts .transport = [] ∧
    fetchUserCasts .httpError = [] ∧
    (postRoute req { env with fetchOutcome := .transport }).response =
      .err 404 noContentMsg ∧
    (postRoute req { env with fetchOutcome := .transport }).response =
      (postRoute req { env with fetchOutcome := .ok (some []) }).response := by
  have hm1 : ({ env with fetchOutcome := FetchOutcome.transport } :
      Env).hasRecentAt 30 = false ∨
      ({ env with fetchOutcome := FetchOutcome.transport } :
        Env).cachedScore = none := hmiss
  have hm2 : ({ env with fetchOutcome := FetchOutcome.ok (some []) } :
      Env).hasRecentAt 30 = false ∨
      ({ env with fetchOutcome := FetchOutcome.ok (some []) } :
        Env).cachedScore = none := hmiss
  refine ⟨rfl, rfl, ?_, ?_⟩
  · rw [postRoute_cacheMiss req _ hm1]
    exact postFresh_noContent _ _ rfl
  · rw [postRoute_cacheMiss req _ hm1, postRoute_cacheMiss req _ hm2,
      postFresh_noContent req
        { env with fetchOutcome := FetchOutcome.transport } rfl,
      postFresh_noContent req
        { env with fetchOutcome := FetchOutcome.ok (some []) } rfl]

/-- C10, witness at a concrete input. -/
theorem c10_witness :
    (envAllFail.hasRecentAt 30 = false ∨ envAllFail.cachedScore = none) ∧
    (fetchUserCasts .transport = [] ∧
      fetchUserCasts .httpError = [] ∧
      (postRoute reqPlain
          { envAllFail with fetchOutcome := .transport }).response =
        .err 404 noContentMsg ∧
      (postRoute reqPlain
          { envAllFail with fetchOutcome := .transport }).response =
        (postRoute reqPlain
          { envAllFail with fetchOutcome := .ok (some []) }).response) :=
  ⟨Or.inl rfl, c10_theorem reqPlain envAllFail (Or.inl rfl)⟩

end CreatorScore
